import Mathlib

/-!
Shallow embedding of the call signaling engine in `src/webrtc/call.ts`
(class `MatrixCall`).  Each definition mirrors one method or continuation of
the source; asynchronous results (transport sends, WebRTC operations, media
acquisition) are passed in as explicit parameters, and the effects a method
performs (outbound signaling events, timers, emitted call events) are
returned in an `Out` record alongside the updated call state.
-/

namespace WebrtcCall

/-- Call states, mirroring `enum CallState` in the source. -/
inductive CallState
  | Fledgling | InviteSent | WaitLocalMedia | CreateOffer | CreateAnswer
  | Connecting | Connected | Ringing | Ended
deriving DecidableEq, Repr

/-- Call media types, mirroring `enum CallType`. -/
inductive CallType
  | Voice | Video
deriving DecidableEq, Repr

/-- Call directions, mirroring `enum CallDirection`. -/
inductive CallDirection
  | Inbound | Outbound
deriving DecidableEq, Repr

/-- Which side ended the call, mirroring `enum CallParty`. -/
inductive CallParty
  | Local | Remote
deriving DecidableEq, Repr

/-- Error codes, mirroring `enum CallErrorCode`. -/
inductive CallErrorCode
  | UserHangup | LocalOfferFailed | NoUserMedia | UnknownDevices | SendInvite
  | CreateAnswer | SendAnswer | SetRemoteDescription | SetLocalDescription
  | AnsweredElsewhere | IceFailed | InviteTimeout | Replaced | SignallingFailed
deriving DecidableEq, Repr

/-- The wire strings of `CallErrorCode` (the enum values in the source). -/
def errorCodeStr : CallErrorCode → String
  | .UserHangup => "user_hangup"
  | .LocalOfferFailed => "local_offer_failed"
  | .NoUserMedia => "no_user_media"
  | .UnknownDevices => "unknown_devices"
  | .SendInvite => "send_invite"
  | .CreateAnswer => "create_answer"
  | .SendAnswer => "send_answer"
  | .SetRemoteDescription => "set_remote_description"
  | .SetLocalDescription => "set_local_description"
  | .AnsweredElsewhere => "answered_elsewhere"
  | .IceFailed => "ice_failed"
  | .InviteTimeout => "invite_timeout"
  | .Replaced => "replaced"
  | .SignallingFailed => "signalling_timeout"

/-- Abstract WebRTC signaling states of the peer connection. -/
inductive SignalingState
  | stable | haveLocalOffer | haveRemoteOffer | closed
deriving DecidableEq, Repr

/-- A session description as carried on the wire (`{sdp, type}`); either field
may be absent or empty in an inbound message. -/
structure Desc where
  sdp : Option String
  descType : Option String
deriving DecidableEq, Repr

/-- An ICE candidate (`{candidate, sdpMid, sdpMLineIndex}`). -/
structure Candidate where
  candidate : String
  sdpMid : Option String
  sdpMLineIndex : Option Int
deriving DecidableEq, Repr

/-- A value of a content field of an outbound signaling event. -/
inductive FieldVal
  | str (s : String)
  | num (n : Int)
  | cands (cs : List Candidate)
  | desc (d : Desc)
deriving DecidableEq, Repr

/-- Content of a signaling event: an ordered list of key/value fields. -/
abbrev Content := List (String × FieldVal)

/-- An outbound signaling event handed to the transport (`client.sendEvent`);
`content` already includes the envelope fields merged in by `sendVoipEvent`. -/
structure SentEvent where
  eventType : String
  content : Content
deriving DecidableEq, Repr

/-- A timer the code arms via `setTimeout`.  The invite-expiry delay is an
integer because `lifetime - localAge` can be non-positive (a stale invite);
`setTimeout` then fires immediately. -/
inductive TimerReq
  | candidateBurst (delayMs : Nat)
  | candidateRetry (delayMs : Nat)
  | inviteTimeout (delayMs : Nat)
  | inviteExpiry (delayMs : Int)
deriving DecidableEq, Repr

/-- Call events emitted to the owner (`this.emit(...)`); state-change events
are omitted since the state itself is tracked in the `Call` record. -/
inductive CallEvt
  | hangup
  | error (code : CallErrorCode)
  | replaced
  | holdUnhold (onHold : Bool)
deriving DecidableEq, Repr

/-- The effects one method invocation performs: outbound send attempts (in
issue order), timers armed, and call events emitted. -/
structure Out where
  sent : List SentEvent := []
  timers : List TimerReq := []
  events : List CallEvt := []
deriving DecidableEq, Repr

/-- The mutable state of one `MatrixCall` object together with the observable
state of the peer connection and media streams it owns.
`opponentPartyId` is three-valued exactly as in the source: `none` models the
JS `undefined` (no partner chosen), `some none` models `null` (partner chosen,
sent no party id), `some (some s)` a chosen string id.  `mediaStopped` records
that `stopAllMedia` has run; `localAVStream` that a local stream is held. -/
structure Call where
  callId : String
  ourPartyId : String
  state : CallState
  callType : Option CallType
  direction : Option CallDirection
  hangupParty : Option CallParty
  hangupReason : Option CallErrorCode
  opponentVersion : Option Int
  opponentPartyId : Option (Option String)
  candidateSendQueue : List Candidate
  candidateSendTries : Nat
  inviteOrAnswerSent : Bool
  sentEndOfCandidates : Bool
  makingOffer : Bool
  ignoreOffer : Bool
  inviteTimeoutArmed : Bool
  localAVStream : Bool
  waitForLocalAVStream : Bool
  successor : Bool
  mediaStopped : Bool
  pcExists : Bool
  pcSignaling : SignalingState
  pcRemoteDescs : List Desc
  pcLocalDescs : List Desc
  pcAddedCandidates : List Candidate
deriving DecidableEq, Repr

/-- The state of a freshly constructed call (the constructor). -/
def initCall (callId : String) (ourPartyId : String) : Call :=
  { callId := callId
    ourPartyId := ourPartyId
    state := CallState.Fledgling
    callType := none
    direction := none
    hangupParty := none
    hangupReason := none
    opponentVersion := none
    opponentPartyId := none
    candidateSendQueue := []
    candidateSendTries := 0
    inviteOrAnswerSent := false
    sentEndOfCandidates := false
    makingOffer := false
    ignoreOffer := false
    inviteTimeoutArmed := false
    localAVStream := false
    waitForLocalAVStream := false
    successor := false
    mediaStopped := false
    pcExists := false
    pcSignaling := SignalingState.stable
    pcRemoteDescs := []
    pcLocalDescs := []
    pcAddedCandidates := [] }

/-- JS truthiness of an optional string: absent and empty are falsy. -/
def jsTruthy : Option String → Bool
  | none => false
  | some s => s ≠ ""

/-- The conversion `msg.party_id || null`: a missing or falsy (empty) party id
becomes `null`. -/
def normalizePartyId : Option String → Option String
  | none => none
  | some s => if s = "" then none else some s

/-- `partyIdMatches` (source lines 1418-1422): the message's party id, with
missing treated as null, must strictly equal `opponentPartyId`; an unchosen
(`undefined`) opponent never matches. -/
def partyIdMatches (c : Call) (msgPartyId : Option String) : Bool :=
  c.opponentPartyId == some (normalizePartyId msgPartyId)

/-- `callHasEnded` (source lines 978-983). -/
def callHasEnded (c : Call) : Bool :=
  c.state == CallState.Ended

/-- `sendVoipEvent`: extends the content with the version, call_id and
party_id envelope fields and hands the event to the transport. -/
def sendVoipEvent (c : Call) (eventType : String) (content : Content) : SentEvent :=
  { eventType := eventType
    content := content ++
      [("version", FieldVal.num 0),
       ("call_id", FieldVal.str c.callId),
       ("party_id", FieldVal.str c.ourPartyId)] }

/-- The `content` object the source builds in `hangup` (lines 514-517): a
reason field is added for every reason other than `UserHangup`.  The source
then passes a fresh empty object — not this one — to `sendVoipEvent`. -/
def hangupDeadContent (reason : CallErrorCode) : Content :=
  if reason ≠ CallErrorCode.UserHangup then [("reason", FieldVal.str (errorCodeStr reason))] else []

/-- `terminate` (source lines 1271-1293): no-op when already ended, else
clears the invite timeout, records the hangup party and reason, moves to
`Ended`, stops all media, closes the peer connection if not already closed,
and emits a hangup event when `shouldEmit`. -/
def terminate (c : Call) (hangupParty : CallParty) (hangupReason : CallErrorCode)
    (shouldEmit : Bool) : Call × Out :=
  if callHasEnded c then (c, {})
  else
    let c1 : Call :=
      { c with
        inviteTimeoutArmed := false
        hangupParty := some hangupParty
        hangupReason := some hangupReason
        state := CallState.Ended
        mediaStopped := true
        pcSignaling :=
          if c.pcExists ∧ c.pcSignaling ≠ SignalingState.closed then SignalingState.closed
          else c.pcSignaling }
    (c1, { events := if shouldEmit then [CallEvt.hangup] else [] })

/-- `hangup` (source lines 509-519): no-op when the call has ended, else
terminates locally (emitting unless suppressed) and sends an `m.call.hangup`
whose content is the empty object `\x7b\x7d` — the computed
`hangupDeadContent` is discarded by the source. -/
def hangup (c : Call) (reason : CallErrorCode) (suppressEvent : Bool) : Call × Out :=
  if callHasEnded c then (c, {})
  else
    let r := terminate c CallParty.Local reason (!suppressEvent)
    (r.1, { r.2 with sent := r.2.sent ++ [sendVoipEvent r.1 "m.call.hangup" []] })

/-- The guard `this.opponentVersion < 1` in `reject`: false in JS when the
version is `undefined` (a NaN comparison). -/
def opponentVersionBelowOne (c : Call) : Bool :=
  match c.opponentVersion with
  | some v => decide (v < 1)
  | none => false

/-- `reject` (source lines 526-542): throws outside `Ringing` (modelled as a
no-op on the call state), falls back to `hangup` for pre-v1 opponents, else
terminates and sends `m.call.reject`. -/
def reject (c : Call) : Call × Out :=
  if c.state ≠ CallState.Ringing then (c, {})
  else if opponentVersionBelowOne c then
    hangup c CallErrorCode.UserHangup true
  else
    let r := terminate c CallParty.Local CallErrorCode.UserHangup true
    (r.1, { r.2 with sent := r.2.sent ++ [sendVoipEvent r.1 "m.call.reject" []] })

/-- An inbound `m.call.hangup` message. -/
structure HangupMsg where
  partyId : Option String
  reason : Option CallErrorCode
deriving DecidableEq, Repr

/-- `onHangupReceived` (source lines 1185-1203): dropped when the party id
does not match and a partner has been chosen; a hangup while no partner is
chosen is accepted (v0: an early hangup doubles as a reject).  Terminates
attributing the remote party, defaulting the reason to `UserHangup`. -/
def onHangupReceived (c : Call) (msg : HangupMsg) : Call × Out :=
  if ¬ (partyIdMatches c msg.partyId) ∧ c.opponentPartyId ≠ none then (c, {})
  else terminate c CallParty.Remote (msg.reason.getD CallErrorCode.UserHangup) true

/-- `onRejectReceived` (source lines 1205-1216): only acted on in state
`InviteSent`. -/
def onRejectReceived (c : Call) : Call × Out :=
  if c.state = CallState.InviteSent then
    terminate c CallParty.Remote CallErrorCode.UserHangup true
  else (c, {})

/-- An inbound `m.call.select_answer` message. -/
structure SelectAnswerMsg where
  partyId : Option String
  selectedPartyId : Option String
deriving DecidableEq, Repr

/-- `onSelectAnswerReceived` (source lines 908-930): ignored for outbound
calls and for a missing selected_party_id; terminates with
`AnsweredElsewhere` when the selected party is not us.  Note the sender's own
party id is never checked. -/
def onSelectAnswerReceived (c : Call) (msg : SelectAnswerMsg) : Call × Out :=
  if c.direction ≠ some CallDirection.Inbound then (c, {})
  else
    match msg.selectedPartyId with
    | none => (c, {})
    | some pid =>
      if pid ≠ c.ourPartyId then
        terminate c CallParty.Remote CallErrorCode.AnsweredElsewhere true
      else (c, {})

/-- An inbound `m.call.answer` message. -/
structure AnswerMsg where
  partyId : Option String
  version : Option Int
  answer : Desc
deriving DecidableEq, Repr

/-- `onAnswerReceived` (source lines 861-906): ignored when ended or when a
partner is already chosen; else commits the opponent version and party id,
moves to `Connecting`, sets the remote description (terminating locally with
`SetRemoteDescription` on failure), and sends `m.call.select_answer` when the
chosen partner reported a party id. -/
def onAnswerReceived (c : Call) (msg : AnswerMsg) (setRemoteOk : Bool) : Call × Out :=
  if callHasEnded c then (c, {})
  else if c.opponentPartyId ≠ none then (c, {})
  else
    let c1 : Call :=
      { c with
        opponentVersion := msg.version
        opponentPartyId := some (normalizePartyId msg.partyId)
        state := CallState.Connecting }
    if ¬ setRemoteOk then
      terminate c1 CallParty.Local CallErrorCode.SetRemoteDescription false
    else
      let c2 := { c1 with pcRemoteDescs := c1.pcRemoteDescs ++ [msg.answer] }
      match c2.opponentPartyId with
      | some (some pid) =>
        (c2, { sent := [sendVoipEvent c2 "m.call.select_answer"
                 [("selected_party_id", FieldVal.str pid)]] })
      | _ => (c2, {})

/-- An inbound `m.call.candidates` message. -/
structure CandidatesMsg where
  partyId : Option String
  candidates : Option (List Candidate)
deriving DecidableEq, Repr

/-- The candidate loop of `onRemoteIceCandidatesReceived` (source lines
834-854): returns the candidates actually added to the peer connection.  A
candidate missing both `sdpMid` and `sdpMLineIndex` hits a `return` statement
— not a `continue` — so it aborts the whole loop and no later candidate of
the batch is added. -/
def dispatchCandidates : List Candidate → List Candidate
  | [] => []
  | cand :: rest =>
    if cand.sdpMid = none ∧ cand.sdpMLineIndex = none then []
    else cand :: dispatchCandidates rest

/-- `onRemoteIceCandidatesReceived` (source lines 814-855): dropped when the
call has ended, when the party id does not match, or when the message carries
no candidates field; else runs the candidate loop. -/
def onRemoteIceCandidatesReceived (c : Call) (msg : CandidatesMsg) : Call × Out :=
  if callHasEnded c then (c, {})
  else if ¬ (partyIdMatches c msg.partyId) then (c, {})
  else
    match msg.candidates with
    | none => (c, {})
    | some cands =>
      ({ c with pcAddedCandidates := c.pcAddedCandidates ++ dispatchCandidates cands }, {})

/-- `isLocalOnHold` (source lines 617-622): the placeholder returns true
exactly when the call is `Connected`. -/
def isLocalOnHold (c : Call) : Bool :=
  c.state == CallState.Connected

/-- An inbound `m.call.negotiate` message. -/
structure NegotiateMsg where
  partyId : Option String
  description : Option Desc
deriving DecidableEq, Repr

/-- `onNegotiateReceived` (source lines 932-976).  Note there is no party-id
filter in this handler.  An invalid description (missing or falsy sdp/type)
is ignored.  Politeness follows the direction; on an offer collision an
impolite call sets `ignoreOffer` and returns.  Otherwise the remote
description is set and, for an offer, an answer is created, set locally and
sent in an `m.call.negotiate`; `negotiationOk` stands for the success of
those awaited WebRTC operations (a failure is only logged). -/
def onNegotiateReceived (c : Call) (msg : NegotiateMsg) (negotiationOk : Bool)
    (answerDesc : Desc) : Call × Out :=
  match msg.description with
  | none => (c, {})
  | some description =>
    if ¬ (jsTruthy description.sdp ∧ jsTruthy description.descType) then (c, {})
    else
      let polite : Bool := c.direction == some CallDirection.Inbound
      let offerCollision : Bool :=
        (description.descType == some "offer") &&
          (c.makingOffer || c.pcSignaling != SignalingState.stable)
      let c1 := { c with ignoreOffer := !polite && offerCollision }
      if c1.ignoreOffer then (c1, {})
      else
        let prevOnHold := isLocalOnHold c1
        let r : Call × Out :=
          if ¬ negotiationOk then (c1, {})
          else
            let c2 :=
              { c1 with
                pcRemoteDescs := c1.pcRemoteDescs ++ [description]
                pcSignaling :=
                  if description.descType == some "offer" then SignalingState.haveRemoteOffer
                  else SignalingState.stable }
            if description.descType == some "offer" then
              let c3 :=
                { c2 with
                  pcLocalDescs := c2.pcLocalDescs ++ [answerDesc]
                  pcSignaling := SignalingState.stable }
              (c3, { sent := [sendVoipEvent c3 "m.call.negotiate"
                       [("description", FieldVal.desc answerDesc)]] })
            else (c2, {})
        let nowOnHold := isLocalOnHold r.1
        (r.1, { r.2 with events := r.2.events ++
           (if prevOnHold ≠ nowOnHold then [CallEvt.holdUnhold nowOnHold] else []) })

/-- `queueCandidate` (source lines 1247-1269): appends to the send queue;
returns without scheduling while ringing or before the invite/answer is sent;
otherwise, when no flush is in flight (`candidateSendTries == 0`), schedules
a burst flush after 500 ms for inbound and 2000 ms for outbound calls. -/
def queueCandidate (c : Call) (cand : Candidate) : Call × Out :=
  let c1 := { c with candidateSendQueue := c.candidateSendQueue ++ [cand] }
  if c1.state = CallState.Ringing ∨ ¬ c1.inviteOrAnswerSent then (c1, {})
  else
    let delay : Nat := if c1.direction = some CallDirection.Inbound then 500 else 2000
    if c1.candidateSendTries = 0 then (c1, { timers := [TimerReq.candidateBurst delay] })
    else (c1, {})

/-- The synchronous part of `sendCandidateQueue` (source lines 1323-1338):
no-op on an empty queue, else takes the whole buffer, increments
`candidateSendTries`, and issues one `m.call.candidates` send carrying the
batch.  The taken batch is returned so the asynchronous send result can be
applied later by `sendCandidateQueueOnFailure` / `sendCandidateQueueOnSuccess`. -/
def sendCandidateQueueStart (c : Call) : Call × List Candidate × Out :=
  if c.candidateSendQueue = [] then (c, [], {})
  else
    let cands := c.candidateSendQueue
    let c1 := { c with candidateSendQueue := [], candidateSendTries := c.candidateSendTries + 1 }
    (c1, cands,
      { sent := [sendVoipEvent c1 "m.call.candidates" [("candidates", FieldVal.cands cands)]] })

/-- The success continuation of `sendCandidateQueue` (source lines
1339-1342): resets the try counter and recursively flushes whatever has been
queued meanwhile. -/
def sendCandidateQueueOnSuccess (c : Call) : Call × List Candidate × Out :=
  sendCandidateQueueStart { c with candidateSendTries := 0 }

/-- The failure continuation of `sendCandidateQueue` (source lines
1343-1368), applied to the call state at rejection time, with `cands` the
batch whose send failed: pushes the batch back onto the end of the queue
(after anything queued while the send was in flight); when the try counter
exceeds 5, gives up and resets it; else schedules a retry after
`500 * 2 ^ candidateSendTries` ms and increments the counter again. -/
def sendCandidateQueueOnFailure (c : Call) (cands : List Candidate) : Call × Out :=
  let c1 := { c with candidateSendQueue := c.candidateSendQueue ++ cands }
  if c1.candidateSendTries > 5 then
    ({ c1 with candidateSendTries := 0 }, {})
  else
    ({ c1 with candidateSendTries := c1.candidateSendTries + 1 },
      { timers := [TimerReq.candidateRetry (500 * 2 ^ c1.candidateSendTries)] })

/-- The synchronous part of `sendAnswer` (source lines 680-697): discards the
queued candidates (they ride in the answer description) and issues the
`m.call.answer` send carrying the peer connection's local description. -/
def sendAnswerStart (c : Call) (localDesc : Desc) : Call × Out :=
  let c1 := { c with candidateSendQueue := [] }
  (c1, { sent := [sendVoipEvent c1 "m.call.answer" [("answer", FieldVal.desc localDesc)]] })

/-- The success continuation of the answer send (source lines 698-703): marks
the answer as sent and flushes candidates queued meanwhile. -/
def sendAnswerOnSuccess (c : Call) : Call × List Candidate × Out :=
  sendCandidateQueueStart { c with inviteOrAnswerSent := true }

/-- The failure continuation of the answer send (source lines 704-717):
unconditionally sets the state back to `Ringing` — with no check that the
call may have ended while the send was in flight — cancels the pending event
and emits an error (`UnknownDevices` for the unknown-device sentinel, else
`SendAnswer`). -/
def sendAnswerOnFailure (c : Call) (unknownDevices : Bool) : Call × Out :=
  let c1 := { c with state := CallState.Ringing }
  let code := if unknownDevices then CallErrorCode.UnknownDevices else CallErrorCode.SendAnswer
  (c1, { events := [CallEvt.error code] })

/-- `gotUserMediaForAnswer` (source lines 720-764): no-op when ended; adopts
the stream, moves to `CreateAnswer`, creates an answer (terminating with
`CreateAnswer` on failure), sets it locally (terminating with
`SetLocalDescription` on failure), moves to `Connecting` and, after the
200 ms gathering grace, runs `sendAnswer`. -/
def gotUserMediaForAnswer (c : Call) (createAnswerOk : Bool) (setLocalOk : Bool)
    (answerDesc : Desc) : Call × Out :=
  if callHasEnded c then (c, {})
  else
    let c1 := { c with localAVStream := true, state := CallState.CreateAnswer }
    if ¬ createAnswerOk then terminate c1 CallParty.Local CallErrorCode.CreateAnswer true
    else if ¬ setLocalOk then terminate c1 CallParty.Local CallErrorCode.SetLocalDescription true
    else
      let c2 :=
        { c1 with
          pcLocalDescs := c1.pcLocalDescs ++ [answerDesc]
          pcSignaling := SignalingState.stable
          state := CallState.Connecting }
      sendAnswerStart c2 answerDesc

/-- `answer` (source lines 454-480): no-op once the invite or answer has been
sent; requests local media (moving to `WaitLocalMedia`) when no stream is
held or awaited; proceeds straight to `gotUserMediaForAnswer` when a stream
is already held. -/
def answer (c : Call) (createAnswerOk : Bool) (setLocalOk : Bool) (answerDesc : Desc) :
    Call × Out :=
  if c.inviteOrAnswerSent then (c, {})
  else if ¬ c.localAVStream ∧ ¬ c.waitForLocalAVStream then
    ({ c with state := CallState.WaitLocalMedia, waitForLocalAVStream := true }, {})
  else if c.localAVStream then
    gotUserMediaForAnswer c createAnswerOk setLocalOk answerDesc
  else
    ({ c with state := CallState.WaitLocalMedia }, {})

/-- `getUserMediaFailed` (source lines 1078-1096): delegates to the successor
when replaced, else emits `NoUserMedia` and terminates without a hangup
event. -/
def getUserMediaFailed (c : Call) : Call × Out :=
  if c.successor then (c, {})
  else
    let r := terminate c CallParty.Local CallErrorCode.NoUserMedia false
    (r.1, { r.2 with events := CallEvt.error CallErrorCode.NoUserMedia :: r.2.events })

/-- `gotUserMediaForInvite` (source lines 640-678): delegates to the
successor when replaced, no-op when ended; else moves to `CreateOffer`,
adopts the stream and creates the peer connection, then waits for the
negotiation-needed event. -/
def gotUserMediaForInvite (c : Call) : Call × Out :=
  if c.successor then (c, {})
  else if callHasEnded c then (c, {})
  else
    ({ c with
        state := CallState.CreateOffer
        localAVStream := true
        pcExists := true
        pcSignaling := SignalingState.stable }, {})

/-- The synchronous part of `placeCallWithConstraints` (source lines
1372-1383): registers the call, moves to `WaitLocalMedia` and fixes the
direction as outbound; the media result arrives later as
`gotUserMediaForInvite` or `getUserMediaFailed`. -/
def placeCallWithConstraints (c : Call) : Call :=
  { c with state := CallState.WaitLocalMedia, direction := some CallDirection.Outbound }

/-- `gotLocalOffer` (source lines 985-1062): drops when ended; sets the local
description (terminating with `SetLocalDescription` on failure); discards
the queued candidates; sends an `m.call.invite` when in `CreateOffer`, else
an `m.call.negotiate` (the content carries the description and a
`lifetime` of 60000 ms in both cases).  On send success from `CreateOffer`
it marks the invite sent, moves to `InviteSent` and arms the 60 s invite
timeout.  On send failure it classifies the error (`UnknownDevices` /
`SendInvite` / `SignallingFailed`), emits it and terminates. -/
def gotLocalOffer (c : Call) (desc : Desc) (setLocalOk : Bool) (sendOk : Bool)
    (unknownDevices : Bool) : Call × Out :=
  if callHasEnded c then (c, {})
  else if ¬ setLocalOk then terminate c CallParty.Local CallErrorCode.SetLocalDescription true
  else
    let c1 :=
      { c with
        pcLocalDescs := c.pcLocalDescs ++ [desc]
        pcSignaling := SignalingState.haveLocalOffer }
    let isInvite := c1.state = CallState.CreateOffer
    let eventType := if isInvite then "m.call.invite" else "m.call.negotiate"
    let keyName := if isInvite then "offer" else "description"
    let c2 := { c1 with candidateSendQueue := [] }
    let ev := sendVoipEvent c2 eventType
      [(keyName, FieldVal.desc desc), ("lifetime", FieldVal.num 60000)]
    if sendOk then
      if isInvite then
        ({ c2 with
            inviteOrAnswerSent := true
            state := CallState.InviteSent
            inviteTimeoutArmed := true },
          { sent := [ev], timers := [TimerReq.inviteTimeout 60000] })
      else (c2, { sent := [ev] })
    else
      let code :=
        if unknownDevices then CallErrorCode.UnknownDevices
        else if isInvite then CallErrorCode.SendInvite
        else CallErrorCode.SignallingFailed
      let r := terminate c2 CallParty.Local code false
      (r.1, { r.2 with sent := [ev], events := CallEvt.error code :: r.2.events })

/-- `getLocalOfferFailed` (source lines 1064-1076). -/
def getLocalOfferFailed (c : Call) : Call × Out :=
  let r := terminate c CallParty.Local CallErrorCode.LocalOfferFailed false
  (r.1, { r.2 with events := CallEvt.error CallErrorCode.LocalOfferFailed :: r.2.events })

/-- The synchronous prefix of `onNegotiationNeeded` (source lines 1123-1133):
ignored when not in `CreateOffer` and the opponent is a legacy v0 peer; else
raises `makingOffer` before creating the offer. -/
def onNegotiationNeededStart (c : Call) : Call :=
  if c.state ≠ CallState.CreateOffer ∧ c.opponentVersion = some 0 then c
  else { c with makingOffer := true }

/-- The remainder of `onNegotiationNeeded` (source lines 1134-1145) once the
offer creation resolves: routes a created offer through `gotLocalOffer`, a
creation failure through `getLocalOfferFailed`, and in either case lowers
`makingOffer` in the `finally` block. -/
def onNegotiationNeededFinish (c : Call) (createOfferOk : Bool) (offerDesc : Desc)
    (setLocalOk : Bool) (sendOk : Bool) (unknownDevices : Bool) : Call × Out :=
  if createOfferOk then
    let r := gotLocalOffer c offerDesc setLocalOk sendOk unknownDevices
    ({ r.1 with makingOffer := false }, r.2)
  else
    let r := getLocalOfferFailed c
    ({ r.1 with makingOffer := false }, r.2)

/-- Observed ICE connection states relevant to the handler. -/
inductive IceConnState
  | connected | failed | other
deriving DecidableEq, Repr

/-- `onIceConnectionStateChanged` (source lines 1098-1112): ignored when
ended; `connected` moves the call to `Connected`, `failed` hangs up with
`IceFailed`. -/
def onIceConnectionStateChanged (c : Call) (ice : IceConnState) : Call × Out :=
  if callHasEnded c then (c, {})
  else
    match ice with
    | IceConnState.connected => ({ c with state := CallState.Connected }, {})
    | IceConnState.failed => hangup c CallErrorCode.IceFailed false
    | IceConnState.other => (c, {})

/-- The body of the invite-expiry timer armed in `initWithInvite` (source
lines 424-435): only acts while still `Ringing`; then records the remote
party as the hangup party — leaving `hangupReason` untouched — moves to
`Ended`, stops all media, closes the peer connection if needed and emits a
hangup event. -/
def inviteExpiryFired (c : Call) : Call × Out :=
  if c.state = CallState.Ringing then
    ({ c with
        hangupParty := some CallParty.Remote
        state := CallState.Ended
        mediaStopped := true
        pcSignaling :=
          if c.pcExists ∧ c.pcSignaling ≠ SignalingState.closed then SignalingState.closed
          else c.pcSignaling },
      { events := [CallEvt.hangup] })
  else (c, {})

/-- The body of the invite-timeout timer armed in `gotLocalOffer` (source
lines 1038-1043): clears its own handle, then hangs up with `InviteTimeout`
only when the call is still in `InviteSent`. -/
def inviteTimeoutFired (c : Call) : Call × Out :=
  let c1 := { c with inviteTimeoutArmed := false }
  if c1.state = CallState.InviteSent then hangup c1 CallErrorCode.InviteTimeout false
  else (c1, {})

/-- An inbound `m.call.invite` message. -/
structure InviteMsg where
  offer : Desc
  version : Option Int
  partyId : Option String
  lifetime : Int
deriving DecidableEq, Repr

/-- `initWithInvite` (source lines 377-437): creates the peer connection and
sets the remote offer (terminating with `SetRemoteDescription` on failure,
and likewise when no remote stream appears — `remoteTrackKinds` is the track
kinds of the first remote stream, `none` when there is no stream).  Infers
the call type from the remote tracks, moves to `Ringing`, fixes the inbound
direction and commits the opponent version and party id.  Only when the
event's local age is truthy (non-zero) does it arm the expiry timer, with
delay `lifetime - localAge` (which may be non-positive for a stale invite,
firing immediately). -/
def initWithInvite (c : Call) (msg : InviteMsg) (localAge : Option Int)
    (setRemoteOk : Bool) (remoteTrackKinds : Option (List String)) : Call × Out :=
  let c0 := { c with pcExists := true, pcSignaling := SignalingState.stable }
  if ¬ setRemoteOk then terminate c0 CallParty.Local CallErrorCode.SetRemoteDescription false
  else
    let c1 :=
      { c0 with
        pcRemoteDescs := c0.pcRemoteDescs ++ [msg.offer]
        pcSignaling := SignalingState.haveRemoteOffer }
    match remoteTrackKinds with
    | none => terminate c1 CallParty.Local CallErrorCode.SetRemoteDescription false
    | some kinds =>
      let c2 :=
        { c1 with
          callType := some (if kinds.contains "video" then CallType.Video else CallType.Voice)
          state := CallState.Ringing
          direction := some CallDirection.Inbound
          opponentVersion := msg.version
          opponentPartyId := some (normalizePartyId msg.partyId) }
      match localAge with
      | some a =>
        if a ≠ 0 then (c2, { timers := [TimerReq.inviteExpiry (msg.lifetime - a)] })
        else (c2, {})
      | none => (c2, {})

/-- `initWithHangup` (source lines 443-449). -/
def initWithHangup (c : Call) : Call :=
  { c with state := CallState.Ended }

/-- `replacedBy` (source lines 487-502), restricted to the effects on this
call (the stream/wait handover mutates only the new call): records the
successor, emits `Replaced` and hangs up with reason `Replaced`, suppressing
the hangup event. -/
def replacedBy (c : Call) : Call × Out :=
  let c1 := { c with successor := true }
  let r := hangup c1 CallErrorCode.Replaced true
  (r.1, { r.2 with events := CallEvt.replaced :: r.2.events })

/-- One atomic operation on a call: a public method, an inbound message
handler, an asynchronous continuation, or a timer firing.  External
nondeterminism (message contents, WebRTC and transport results) is carried
in the constructor arguments. -/
inductive Step
  | placeCallOp
  | gotUserMediaForInviteOp
  | getUserMediaFailedOp
  | answerOp (createAnswerOk : Bool) (setLocalOk : Bool) (answerDesc : Desc)
  | gotUserMediaForAnswerOp (createAnswerOk : Bool) (setLocalOk : Bool) (answerDesc : Desc)
  | hangupOp (reason : CallErrorCode) (suppressEvent : Bool)
  | rejectOp
  | replacedByOp
  | initWithInviteOp (msg : InviteMsg) (localAge : Option Int) (setRemoteOk : Bool)
      (remoteTrackKinds : Option (List String))
  | initWithHangupOp
  | onHangupReceivedOp (msg : HangupMsg)
  | onRejectReceivedOp
  | onAnswerReceivedOp (msg : AnswerMsg) (setRemoteOk : Bool)
  | onSelectAnswerReceivedOp (msg : SelectAnswerMsg)
  | onNegotiateReceivedOp (msg : NegotiateMsg) (negotiationOk : Bool) (answerDesc : Desc)
  | onRemoteIceCandidatesReceivedOp (msg : CandidatesMsg)
  | onNegotiationNeededStartOp
  | onNegotiationNeededFinishOp (createOfferOk : Bool) (offerDesc : Desc)
      (setLocalOk : Bool) (sendOk : Bool) (unknownDevices : Bool)
  | queueCandidateOp (cand : Candidate)
  | candidateFlushStartOp
  | candidateFlushSuccessOp
  | candidateFlushFailureOp (cands : List Candidate)
  | answerSendSuccessOp
  | answerSendFailureOp (unknownDevices : Bool)
  | iceStateChangedOp (ice : IceConnState)
  | inviteExpiryFiredOp
  | inviteTimeoutFiredOp
deriving DecidableEq, Repr

/-- Dispatch of a `Step` to the corresponding source operation. -/
def applyStep (c : Call) (s : Step) : Call × Out :=
  match s with
  | Step.placeCallOp => (placeCallWithConstraints c, {})
  | Step.gotUserMediaForInviteOp => gotUserMediaForInvite c
  | Step.getUserMediaFailedOp => getUserMediaFailed c
  | Step.answerOp a b d => answer c a b d
  | Step.gotUserMediaForAnswerOp a b d => gotUserMediaForAnswer c a b d
  | Step.hangupOp r e => hangup c r e
  | Step.rejectOp => reject c
  | Step.replacedByOp => replacedBy c
  | Step.initWithInviteOp m a ok k => initWithInvite c m a ok k
  | Step.initWithHangupOp => (initWithHangup c, {})
  | Step.onHangupReceivedOp m => onHangupReceived c m
  | Step.onRejectReceivedOp => onRejectReceived c
  | Step.onAnswerReceivedOp m ok => onAnswerReceived c m ok
  | Step.onSelectAnswerReceivedOp m => onSelectAnswerReceived c m
  | Step.onNegotiateReceivedOp m ok d => onNegotiateReceived c m ok d
  | Step.onRemoteIceCandidatesReceivedOp m => onRemoteIceCandidatesReceived c m
  | Step.onNegotiationNeededStartOp => (onNegotiationNeededStart c, {})
  | Step.onNegotiationNeededFinishOp ok d sl so ud => onNegotiationNeededFinish c ok d sl so ud
  | Step.queueCandidateOp cand => queueCandidate c cand
  | Step.candidateFlushStartOp =>
      let r := sendCandidateQueueStart c
      (r.1, r.2.2)
  | Step.candidateFlushSuccessOp =>
      let r := sendCandidateQueueOnSuccess c
      (r.1, r.2.2)
  | Step.candidateFlushFailureOp cands => sendCandidateQueueOnFailure c cands
  | Step.answerSendSuccessOp =>
      let r := sendAnswerOnSuccess c
      (r.1, r.2.2)
  | Step.answerSendFailureOp ud => sendAnswerOnFailure c ud
  | Step.iceStateChangedOp ice => onIceConnectionStateChanged c ice
  | Step.inviteExpiryFiredOp => inviteExpiryFired c
  | Step.inviteTimeoutFiredOp => inviteTimeoutFired c

/-! Concrete fixtures used by witnesses and counterexamples. -/

/-- A well-formed ICE candidate. -/
def cand1 : Candidate := { candidate := "candidate:1", sdpMid := some "0", sdpMLineIndex := some 0 }

/-- A second well-formed ICE candidate. -/
def cand2 : Candidate := { candidate := "candidate:2", sdpMid := some "0", sdpMLineIndex := some 0 }

/-- A third well-formed ICE candidate. -/
def cand3 : Candidate := { candidate := "candidate:3", sdpMid := some "0", sdpMLineIndex := some 0 }

/-- A candidate missing both `sdpMid` and `sdpMLineIndex`. -/
def badCand : Candidate := { candidate := "candidate:bad", sdpMid := none, sdpMLineIndex := none }

/-- A session description of type offer. -/
def offerDesc : Desc := { sdp := some "v=0", descType := some "offer" }

/-- A session description of type answer. -/
def answerDesc1 : Desc := { sdp := some "v=0a", descType := some "answer" }

/-- An inbound call that has committed opponent party id "A" and is
connecting (the answer send is conceptually in flight). -/
def exampleCommittedInboundCall : Call :=
  { initCall "c1" "D1" with
      state := CallState.Connecting
      direction := some CallDirection.Inbound
      opponentVersion := some 0
      opponentPartyId := some (some "A")
      localAVStream := true
      pcExists := true }

/-- An outbound call that has sent its invite, with the invite timeout armed. -/
def exampleInviteSentCall : Call :=
  { initCall "c1" "D1" with
      state := CallState.InviteSent
      direction := some CallDirection.Outbound
      inviteOrAnswerSent := true
      inviteTimeoutArmed := true
      localAVStream := true
      pcExists := true
      pcSignaling := SignalingState.haveLocalOffer }

/-- An outbound call in `CreateOffer` about to send its invite. -/
def exampleCreateOfferCall : Call :=
  { initCall "c1" "D1" with
      state := CallState.CreateOffer
      direction := some CallDirection.Outbound
      localAVStream := true
      pcExists := true }

/-- An outbound call mid-offer (`makingOffer` raised), the glare situation. -/
def exampleGlareCall : Call :=
  { initCall "c1" "D1" with
      state := CallState.CreateOffer
      direction := some CallDirection.Outbound
      makingOffer := true
      localAVStream := true
      pcExists := true }

/-- A connected outbound call whose invite/answer has been sent, used for
candidate-queue scenarios. -/
def exampleFlushCall : Call :=
  { initCall "c1" "D1" with
      state := CallState.Connected
      direction := some CallDirection.Outbound
      opponentPartyId := some (some "A")
      inviteOrAnswerSent := true
      candidateSendTries := 1
      localAVStream := true
      pcExists := true }

/-- An inbound call still ringing. -/
def exampleRingingCall : Call :=
  { initCall "c1" "D1" with
      state := CallState.Ringing
      direction := some CallDirection.Inbound
      opponentVersion := some 0
      opponentPartyId := some (some "A")
      pcExists := true }

/-- C9: calling `hangup` twice has the same effect as calling it once — the
second invocation returns the state unchanged (so no state transition and no
media stop) and performs no effect at all (no outbound signaling message, no
timer, no emitted event). -/
theorem C9_hangup_idempotent (c : Call) (r1 r2 : CallErrorCode) (s1 s2 : Bool) :
    hangup (hangup c r1 s1).1 r2 s2 = ((hangup c r1 s1).1, {}) := by
  unfold hangup terminate callHasEnded
  by_cases h : c.state = CallState.Ended <;> simp [h]

/-- C10: every `m.call.hangup` produced by `hangup` carries exactly the
envelope fields (version, call_id, party_id) and in particular no `reason`
field, whatever the hangup reason — the source builds a reason into a local
content object but then sends a fresh empty one. -/
theorem C10_hangup_message_envelope_only (c : Call) (r : CallErrorCode) (se : Bool) :
    (hangup c r se).2.sent =
      if c.state = CallState.Ended then []
      else
        [{ eventType := "m.call.hangup"
           content := [("version", FieldVal.num 0), ("call_id", FieldVal.str c.callId),
                       ("party_id", FieldVal.str c.ourPartyId)] }] := by
  unfold hangup terminate callHasEnded sendVoipEvent
  by_cases h : c.state = CallState.Ended <;> simp [h]

/-- C7: for an outbound (impolite) call, a valid negotiate offer arriving
while `makingOffer` is raised or the peer connection is not stable sets
`ignoreOffer` and returns: the remote description is not set, no answer is
created, and nothing is sent. -/
theorem C7_impolite_ignores_colliding_offer (c : Call) (msg : NegotiateMsg)
    (negotiationOk : Bool) (ansDesc : Desc) (d : Desc)
    (hdir : c.direction = some CallDirection.Outbound)
    (hdesc : msg.description = some d)
    (hsdp : jsTruthy d.sdp = true)
    (htype : d.descType = some "offer")
    (hcoll : c.makingOffer = true ∨ c.pcSignaling ≠ SignalingState.stable) :
    onNegotiateReceived c msg negotiationOk ansDesc = ({ c with ignoreOffer := true }, {}) := by
  unfold onNegotiateReceived
  rw [hdesc]
  have hcollb : (c.makingOffer || c.pcSignaling != SignalingState.stable) = true := by
    rcases hcoll with h | h
    · simp [h]
    · simp [bne_iff_ne, h]
  have htypeTruthy : jsTruthy d.descType = true := by rw [htype]; decide
  have hpolite : (c.direction == some CallDirection.Inbound) = false := by rw [hdir]; decide
  simp [htype, hsdp, htypeTruthy, hpolite, hcollb, (by decide : jsTruthy (some "offer") = true)]

/-- Witness for C7: the glare scenario S3 — an outbound call with
`makingOffer` raised receives a colliding offer and ignores it. -/
theorem C7_witness :
    onNegotiateReceived exampleGlareCall
        { partyId := some "A", description := some offerDesc } true answerDesc1
      = ({ exampleGlareCall with ignoreOffer := true }, {}) :=
  C7_impolite_ignores_colliding_offer exampleGlareCall _ true answerDesc1 offerDesc
    (by decide) rfl (by decide) (by decide) (Or.inl (by decide))

/-- Counterexample for C3: with `[cand1, cand2]` buffered, a flush takes the
batch; `cand3` is enqueued while the send is in flight; the send then fails.
The failed batch is pushed to the BACK of the buffer, so the buffer is
`[cand3, cand1, cand2]` — not the claimed failed-batch-first order
`[cand1, cand2, cand3]`, and a later successful flush would not send the
candidates in their original enqueue order. -/
theorem C3_counterexample :
    ((sendCandidateQueueOnFailure
        (queueCandidate
          (sendCandidateQueueStart
            { exampleFlushCall with candidateSendQueue := [cand1, cand2], candidateSendTries := 0 }).1
          cand3).1
        (sendCandidateQueueStart
          { exampleFlushCall with candidateSendQueue := [cand1, cand2], candidateSendTries := 0 }).2.1).1.candidateSendQueue
      = [cand3, cand1, cand2]) ∧
    ((sendCandidateQueueOnFailure
        (queueCandidate
          (sendCandidateQueueStart
            { exampleFlushCall with candidateSendQueue := [cand1, cand2], candidateSendTries := 0 }).1
          cand3).1
        (sendCandidateQueueStart
          { exampleFlushCall with candidateSendQueue := [cand1, cand2], candidateSendTries := 0 }).2.1).1.candidateSendQueue
      ≠ [cand1, cand2, cand3]) := by decide

/-- C3 amended: on a send failure the failed batch is appended to the BACK of
the buffer, after any candidates enqueued while the flush was in flight; in
particular when nothing was enqueued during the flight the buffer holds
exactly the failed batch in its original order, the next flush takes exactly
that batch, and its `m.call.candidates` send carries the candidates in their
original enqueue order. -/
theorem C3_amended_requeue_appends (c : Call) (cands : List Candidate) :
    ((sendCandidateQueueOnFailure c cands).1.candidateSendQueue
        = c.candidateSendQueue ++ cands) ∧
    (c.candidateSendQueue = [] →
      (sendCandidateQueueStart (sendCandidateQueueOnFailure c cands).1).2.1 = cands ∧
      ∀ ev ∈ (sendCandidateQueueStart (sendCandidateQueueOnFailure c cands).1).2.2.sent,
        ev.content.lookup "candidates" = some (FieldVal.cands cands)) := by
  constructor
  · unfold sendCandidateQueueOnFailure
    by_cases h : c.candidateSendTries > 5 <;> simp [h]
  · intro hq
    unfold sendCandidateQueueOnFailure
    by_cases h : c.candidateSendTries > 5 <;>
      · simp only [h]
        unfold sendCandidateQueueStart sendVoipEvent
        by_cases hc : cands = [] <;> simp [hq, hc, List.lookup]

/-- Witness for C3 amended: scenario S6 with an empty buffer at failure time
— the re-queued batch is taken whole, in order, by the next flush. -/
theorem C3_amended_witness :
    ((sendCandidateQueueOnFailure
        { exampleFlushCall with candidateSendQueue := [] } [cand1, cand2, cand3]).1.candidateSendQueue
      = [cand1, cand2, cand3]) ∧
    ((sendCandidateQueueStart
        (sendCandidateQueueOnFailure
          { exampleFlushCall with candidateSendQueue := [] } [cand1, cand2, cand3]).1).2.1
      = [cand1, cand2, cand3]) := by
  have h := C3_amended_requeue_appends
    { exampleFlushCall with candidateSendQueue := [] } [cand1, cand2, cand3]
  exact ⟨by simpa using h.1, (h.2 rfl).1⟩

/-- C4: on a candidate send failure with the retry counter
`candidateSendTries` standing at n, the queue is abandoned (counter reset to
0, no retry timer) when n exceeds 5; otherwise a retry is scheduled after
exactly `500 * 2 ^ n` ms; and in every case the call state is unchanged — a
candidate send failure never moves the call to `Ended`. -/
theorem C4_candidate_retry_backoff (c : Call) (cands : List Candidate) :
    ((c.candidateSendTries > 5 →
        (sendCandidateQueueOnFailure c cands).1.candidateSendTries = 0 ∧
        (sendCandidateQueueOnFailure c cands).2.timers = []) ∧
     (c.candidateSendTries ≤ 5 →
        (sendCandidateQueueOnFailure c cands).2.timers
          = [TimerReq.candidateRetry (500 * 2 ^ c.candidateSendTries)] ∧
        (sendCandidateQueueOnFailure c cands).1.candidateSendTries
          = c.candidateSendTries + 1)) ∧
    (sendCandidateQueueOnFailure c cands).1.state = c.state := by
  unfold sendCandidateQueueOnFailure
  by_cases h : c.candidateSendTries > 5 <;> simp [h]

/-- Witness for C4: with the counter at 1 a failure schedules the retry after
1000 ms; with the counter at 7 the queue is abandoned and the counter reset. -/
theorem C4_witness :
    ((sendCandidateQueueOnFailure exampleFlushCall [cand1]).2.timers
        = [TimerReq.candidateRetry 1000]) ∧
    ((sendCandidateQueueOnFailure
        { exampleFlushCall with candidateSendTries := 7 } [cand1]).1.candidateSendTries = 0) ∧
    ((sendCandidateQueueOnFailure exampleFlushCall [cand1]).1.state
        = exampleFlushCall.state) := by
  refine ⟨?_, ?_, (C4_candidate_retry_backoff exampleFlushCall [cand1]).2⟩
  · have h := ((C4_candidate_retry_backoff exampleFlushCall [cand1]).1.2 (by decide)).1
    simpa using h
  · exact ((C4_candidate_retry_backoff
      { exampleFlushCall with candidateSendTries := 7 } [cand1]).1.1 (by decide)).1

/-- C8 evaluation at the failing input: a batch whose first candidate lacks
both `sdpMid` and `sdpMLineIndex` aborts the whole dispatch loop (the source
uses `return`, not `continue`), so the following well-formed candidate is
never added to the peer connection, contradicting the claim that a dropped
candidate does not prevent the rest of the batch from being added. -/
theorem C8_code_bug_eval :
    dispatchCandidates [badCand, cand1] = [] ∧
    (onRemoteIceCandidatesReceived exampleCommittedInboundCall
        { partyId := some "A", candidates := some [badCand, cand1] }).1.pcAddedCandidates
      = [] ∧
    dispatchCandidates [cand1, badCand] = [cand1] := by decide

/-- Counterexample for C5: when the expiry timer fires on a ringing call, the
call does move to `Ended` with `hangupParty = Remote`, but `hangupReason` is
left at its initial unset value — it is NOT `user_hangup` as claimed (the
timer body never assigns `hangupReason`). -/
theorem C5_counterexample :
    ((inviteExpiryFired exampleRingingCall).1.state = CallState.Ended) ∧
    ((inviteExpiryFired exampleRingingCall).1.hangupParty = some CallParty.Remote) ∧
    ((inviteExpiryFired exampleRingingCall).1.hangupReason = none) ∧
    ((inviteExpiryFired exampleRingingCall).1.hangupReason
      ≠ some CallErrorCode.UserHangup) := by decide

/-- C5 amended: when the expiry timer fires on a call still in `Ringing`, the
call transitions to `Ended` with `hangupParty = Remote`, media stopped and a
hangup event emitted, but `hangupReason` is left unchanged (unset); and when
the invite event reports a truthy local age, `initWithInvite` arms the expiry
timer with delay `lifetime - localAge`, which may be non-positive for a stale
invite (firing immediately: ring and immediately self-hangup). -/
theorem C5_amended_expiry_behavior :
    (∀ c : Call, c.state = CallState.Ringing →
      (inviteExpiryFired c).1.state = CallState.Ended ∧
      (inviteExpiryFired c).1.hangupParty = some CallParty.Remote ∧
      (inviteExpiryFired c).1.hangupReason = c.hangupReason ∧
      (inviteExpiryFired c).1.mediaStopped = true ∧
      (inviteExpiryFired c).2.events = [CallEvt.hangup]) ∧
    (∀ (c : Call) (msg : InviteMsg) (a : Int) (kinds : List String), a ≠ 0 →
      (initWithInvite c msg (some a) true (some kinds)).2.timers
        = [TimerReq.inviteExpiry (msg.lifetime - a)] ∧
      (initWithInvite c msg (some a) true (some kinds)).1.state = CallState.Ringing) := by
  constructor
  · intro c hc
    unfold inviteExpiryFired
    simp [hc]
  · intro c msg a kinds ha
    unfold initWithInvite
    simp [ha]

/-- Witness for C5 amended: a stale invite (lifetime 60000, local age 70000)
arms the expiry timer with the non-positive delay -10000 while ringing, and
firing it on the ringing call ends it attributing the remote party. -/
theorem C5_amended_witness :
    ((initWithInvite (initCall "c2" "D1")
        { offer := offerDesc, version := some 0, partyId := some "A", lifetime := 60000 }
        (some 70000) true (some ["audio"])).2.timers
      = [TimerReq.inviteExpiry (-10000)]) ∧
    ((inviteExpiryFired exampleRingingCall).1.state = CallState.Ended) ∧
    ((inviteExpiryFired exampleRingingCall).1.hangupParty = some CallParty.Remote) := by
  refine ⟨?_, ?_, ?_⟩
  · have h := (C5_amended_expiry_behavior.2 (initCall "c2" "D1")
      { offer := offerDesc, version := some 0, partyId := some "A", lifetime := 60000 }
      70000 ["audio"] (by decide)).1
    simpa using h
  · exact ((C5_amended_expiry_behavior.1 exampleRingingCall) (by decide)).1
  · exact ((C5_amended_expiry_behavior.1 exampleRingingCall) (by decide)).2.1

/-- Counterexample for C1: `onSelectAnswerReceived` never checks the sender's
party id.  A call with committed opponent party id "A" receives a
select_answer from party "B" naming a third party — and is terminated
(`Ended`), a state change caused by a non-matching party's message. -/
theorem C1_counterexample :
    (exampleCommittedInboundCall.opponentPartyId = some (some "A")) ∧
    (normalizePartyId (some "B") ≠ some "A") ∧
    (exampleCommittedInboundCall.state ≠ CallState.Ended) ∧
    ((onSelectAnswerReceived exampleCommittedInboundCall
        { partyId := some "B", selectedPartyId := some "D9" }).1.state = CallState.Ended) := by
  decide

/-- C1 amended: once `opponentPartyId` is committed, the party-id filter does
hold for `candidates` messages (non-matches cause no change at all), for
`answer` messages (ignored wholesale once a partner is chosen), and for
`hangup` messages (non-matches ignored); a `hangup` is additionally accepted
while `opponentPartyId` is still unchosen — the v0 carve-out — and then
terminates the call attributing the remote party.  `negotiate` and
`select_answer` messages, however, are not party-id filtered (see the
counterexample). -/
theorem C1_amended_party_filter :
    (∀ (c : Call) (msg : CandidatesMsg),
      partyIdMatches c msg.partyId = false →
      onRemoteIceCandidatesReceived c msg = (c, {})) ∧
    (∀ (c : Call) (msg : AnswerMsg) (setRemoteOk : Bool),
      c.opponentPartyId ≠ none →
      onAnswerReceived c msg setRemoteOk = (c, {})) ∧
    (∀ (c : Call) (msg : HangupMsg),
      c.opponentPartyId ≠ none →
      partyIdMatches c msg.partyId = false →
      onHangupReceived c msg = (c, {})) ∧
    (∀ (c : Call) (msg : HangupMsg),
      c.opponentPartyId = none →
      c.state ≠ CallState.Ended →
      (onHangupReceived c msg).1.state = CallState.Ended ∧
      (onHangupReceived c msg).1.hangupParty = some CallParty.Remote) := by
  refine ⟨?_, ?_, ?_, ?_⟩
  · intro c msg hm
    unfold onRemoteIceCandidatesReceived callHasEnded
    by_cases h : c.state = CallState.Ended <;> simp [h, hm]
  · intro c msg ok hc
    unfold onAnswerReceived callHasEnded
    by_cases h : c.state = CallState.Ended <;> simp [h, hc]
  · intro c msg hc hm
    unfold onHangupReceived
    simp [hm, hc]
  · intro c msg hc hs
    unfold onHangupReceived terminate callHasEnded
    simp [hc, hs]

/-- Witness for C1 amended: a candidates message and a hangup message from
party "B" are dropped by the committed call; an early hangup with no party id
ends a fresh (unchosen) call. -/
theorem C1_amended_witness :
    (onRemoteIceCandidatesReceived exampleCommittedInboundCall
        { partyId := some "B", candidates := some [cand1] }
      = (exampleCommittedInboundCall, {})) ∧
    (onHangupReceived exampleCommittedInboundCall { partyId := some "B", reason := none }
      = (exampleCommittedInboundCall, {})) ∧
    ((onHangupReceived (initCall "c0" "D1") { partyId := none, reason := none }).1.state
      = CallState.Ended) := by
  refine ⟨?_, ?_, ?_⟩
  · exact C1_amended_party_filter.1 exampleCommittedInboundCall _ (by decide)
  · exact C1_amended_party_filter.2.2.1 exampleCommittedInboundCall _ (by decide) (by decide)
  · exact (C1_amended_party_filter.2.2.2 (initCall "c0" "D1") _ (by decide) (by decide)).1

/-- C2 evaluation at the failing interleaving: an inbound call is answering;
its `m.call.answer` send is in flight; the chosen partner's hangup arrives
and the call reaches the terminal state `Ended`; the answer send then fails,
and the failure handler unconditionally sets the state back to `Ringing` —
the call leaves `Ended`, so `Ended` is not absorbing in the source. -/
theorem C2_code_bug_eval :
    ((onHangupReceived exampleCommittedInboundCall
        { partyId := some "A", reason := none }).1.state = CallState.Ended) ∧
    ((sendAnswerOnFailure
        (onHangupReceived exampleCommittedInboundCall
          { partyId := some "A", reason := none }).1 false).1.state
      = CallState.Ringing) ∧
    (CallState.Ringing ≠ CallState.Ended) := by decide

/-! Helper lemmas locating the only arming site of the invite timeout. -/

/-- `terminate` never arms the invite timeout. -/
theorem terminate_preserves_unarmed (c : Call) (p : CallParty) (r : CallErrorCode) (e : Bool)
    (h : c.inviteTimeoutArmed = false) :
    (terminate c p r e).1.inviteTimeoutArmed = false := by
  unfold terminate callHasEnded
  split <;> simp [h]

/-- If the invite timeout is armed after `terminate`, it was armed before. -/
theorem terminate_armed_le (c : Call) (p : CallParty) (r : CallErrorCode) (e : Bool)
    (h : (terminate c p r e).1.inviteTimeoutArmed = true) : c.inviteTimeoutArmed = true := by
  unfold terminate callHasEnded at h
  split at h
  · exact h
  · simp at h

/-- `hangup` never arms the invite timeout. -/
theorem hangup_preserves_unarmed (c : Call) (r : CallErrorCode) (s : Bool)
    (h : c.inviteTimeoutArmed = false) :
    (hangup c r s).1.inviteTimeoutArmed = false := by
  unfold hangup
  split
  · exact h
  · exact terminate_preserves_unarmed c _ _ _ h

/-- `reject` never arms the invite timeout. -/
theorem reject_preserves_unarmed (c : Call) (h : c.inviteTimeoutArmed = false) :
    (reject c).1.inviteTimeoutArmed = false := by
  unfold reject
  split
  · exact h
  · split
    · exact hangup_preserves_unarmed c _ _ h
    · exact terminate_preserves_unarmed c _ _ _ h

/-- `replacedBy` never arms the invite timeout. -/
theorem replacedBy_preserves_unarmed (c : Call) (h : c.inviteTimeoutArmed = false) :
    (replacedBy c).1.inviteTimeoutArmed = false := by
  unfold replacedBy
  exact hangup_preserves_unarmed _ _ _ h

/-- `initWithInvite` never arms the invite timeout. -/
theorem initWithInvite_preserves_unarmed (c : Call) (msg : InviteMsg) (a : Option Int)
    (ok : Bool) (k : Option (List String)) (h : c.inviteTimeoutArmed = false) :
    (initWithInvite c msg a ok k).1.inviteTimeoutArmed = false := by
  unfold initWithInvite
  repeat' split
  all_goals first
    | exact terminate_preserves_unarmed _ _ _ _ h
    | simp [h]

/-- `onHangupReceived` never arms the invite timeout. -/
theorem onHangupReceived_preserves_unarmed (c : Call) (msg : HangupMsg)
    (h : c.inviteTimeoutArmed = false) :
    (onHangupReceived c msg).1.inviteTimeoutArmed = false := by
  unfold onHangupReceived
  split
  · exact h
  · exact terminate_preserves_unarmed c _ _ _ h

/-- `onRejectReceived` never arms the invite timeout. -/
theorem onRejectReceived_preserves_unarmed (c : Call) (h : c.inviteTimeoutArmed = false) :
    (onRejectReceived c).1.inviteTimeoutArmed = false := by
  unfold onRejectReceived
  split
  · exact terminate_preserves_unarmed c _ _ _ h
  · exact h

/-- `onAnswerReceived` never arms the invite timeout. -/
theorem onAnswerReceived_preserves_unarmed (c : Call) (msg : AnswerMsg) (ok : Bool)
    (h : c.inviteTimeoutArmed = false) :
    (onAnswerReceived c msg ok).1.inviteTimeoutArmed = false := by
  unfold onAnswerReceived
  split
  · exact h
  · split
    · exact h
    · split
      · exact terminate_preserves_unarmed _ _ _ _ h
      · cases hn : normalizePartyId msg.partyId <;> simp [hn, h]

/-- `onSelectAnswerReceived` never arms the invite timeout. -/
theorem onSelectAnswerReceived_preserves_unarmed (c : Call) (msg : SelectAnswerMsg)
    (h : c.inviteTimeoutArmed = false) :
    (onSelectAnswerReceived c msg).1.inviteTimeoutArmed = false := by
  unfold onSelectAnswerReceived
  split
  · exact h
  · split
    · exact h
    · split
      · exact terminate_preserves_unarmed c _ _ _ h
      · exact h

/-- `onNegotiateReceived` leaves the invite timeout flag untouched. -/
theorem onNegotiateReceived_armed_eq (c : Call) (msg : NegotiateMsg) (ok : Bool) (d : Desc) :
    (onNegotiateReceived c msg ok d).1.inviteTimeoutArmed = c.inviteTimeoutArmed := by
  unfold onNegotiateReceived
  repeat' split
  all_goals simp [apply_ite (fun p : Call × Out => p.1.inviteTimeoutArmed)]

/-- `onRemoteIceCandidatesReceived` leaves the invite timeout flag untouched. -/
theorem onRemoteIceCandidatesReceived_armed_eq (c : Call) (msg : CandidatesMsg) :
    (onRemoteIceCandidatesReceived c msg).1.inviteTimeoutArmed = c.inviteTimeoutArmed := by
  unfold onRemoteIceCandidatesReceived
  split
  · rfl
  · split
    · rfl
    · split <;> simp

/-- `gotUserMediaForAnswer` never arms the invite timeout. -/
theorem gotUserMediaForAnswer_preserves_unarmed (c : Call) (a b : Bool) (d : Desc)
    (h : c.inviteTimeoutArmed = false) :
    (gotUserMediaForAnswer c a b d).1.inviteTimeoutArmed = false := by
  unfold gotUserMediaForAnswer sendAnswerStart
  split
  · exact h
  · split
    · exact terminate_preserves_unarmed _ _ _ _ h
    · split
      · exact terminate_preserves_unarmed _ _ _ _ h
      · simp [h]

/-- `answer` never arms the invite timeout. -/
theorem answer_preserves_unarmed (c : Call) (a b : Bool) (d : Desc)
    (h : c.inviteTimeoutArmed = false) :
    (answer c a b d).1.inviteTimeoutArmed = false := by
  unfold answer
  split
  · exact h
  · split
    · exact h
    · split
      · exact gotUserMediaForAnswer_preserves_unarmed c a b d h
      · exact h

/-- `getUserMediaFailed` never arms the invite timeout. -/
theorem getUserMediaFailed_preserves_unarmed (c : Call) (h : c.inviteTimeoutArmed = false) :
    (getUserMediaFailed c).1.inviteTimeoutArmed = false := by
  unfold getUserMediaFailed
  split
  · exact h
  · exact terminate_preserves_unarmed c _ _ _ h

/-- `gotUserMediaForInvite` never arms the invite timeout. -/
theorem gotUserMediaForInvite_preserves_unarmed (c : Call) (h : c.inviteTimeoutArmed = false) :
    (gotUserMediaForInvite c).1.inviteTimeoutArmed = false := by
  unfold gotUserMediaForInvite
  split
  · exact h
  · split
    · exact h
    · simp [h]

/-- `onIceConnectionStateChanged` never arms the invite timeout. -/
theorem onIceConnectionStateChanged_preserves_unarmed (c : Call) (ice : IceConnState)
    (h : c.inviteTimeoutArmed = false) :
    (onIceConnectionStateChanged c ice).1.inviteTimeoutArmed = false := by
  unfold onIceConnectionStateChanged
  split
  · exact h
  · cases ice
    · simp [h]
    · exact hangup_preserves_unarmed c _ _ h
    · exact h

/-- `inviteExpiryFired` never arms the invite timeout. -/
theorem inviteExpiryFired_preserves_unarmed (c : Call) (h : c.inviteTimeoutArmed = false) :
    (inviteExpiryFired c).1.inviteTimeoutArmed = false := by
  unfold inviteExpiryFired
  split <;> simp [h]

/-- The invite-timeout timer body always leaves the timer disarmed. -/
theorem inviteTimeoutFired_unarmed (c : Call) :
    (inviteTimeoutFired c).1.inviteTimeoutArmed = false := by
  unfold inviteTimeoutFired
  dsimp only
  split
  · exact hangup_preserves_unarmed _ _ _ (by simp)
  · simp

/-- The only arming site: `gotLocalOffer` arms the invite timeout exactly
when it successfully sends an invite from `CreateOffer`, in which case the
call moves to `InviteSent` and the armed timer is the 60 s one-shot. -/
theorem gotLocalOffer_arming (c : Call) (d : Desc) (sl so ud : Bool)
    (hpre : c.inviteTimeoutArmed = false)
    (hpost : (gotLocalOffer c d sl so ud).1.inviteTimeoutArmed = true) :
    c.state = CallState.CreateOffer ∧
    (gotLocalOffer c d sl so ud).1.state = CallState.InviteSent ∧
    (gotLocalOffer c d sl so ud).2.timers = [TimerReq.inviteTimeout 60000] := by
  unfold gotLocalOffer at hpost ⊢
  by_cases h1 : callHasEnded c = true
  · rw [if_pos h1] at hpost
    simp [hpre] at hpost
  · rw [if_neg h1] at hpost ⊢
    by_cases h2 : sl = true
    · rw [if_neg (by simp [h2])] at hpost ⊢
      dsimp only at hpost ⊢
      by_cases h4 : so = true
      · rw [if_pos h4] at hpost ⊢
        by_cases h3 : c.state = CallState.CreateOffer
        · rw [if_pos h3] at hpost ⊢
          exact ⟨h3, by simp, by simp⟩
        · rw [if_neg h3] at hpost
          simp [hpre] at hpost
      · rw [if_neg h4] at hpost
        dsimp only at hpost
        have hc2 := terminate_armed_le _ _ _ _ hpost
        simp [hpre] at hc2
    · rw [if_pos (by simp [h2])] at hpost
      have hc := terminate_armed_le _ _ _ _ hpost
      simp [hpre] at hc

/-- `onNegotiationNeededFinish` arms the invite timeout only through
`gotLocalOffer`'s invite branch. -/
theorem onNegotiationNeededFinish_arming (c : Call) (co : Bool) (d : Desc) (sl so ud : Bool)
    (hpre : c.inviteTimeoutArmed = false)
    (hpost : (onNegotiationNeededFinish c co d sl so ud).1.inviteTimeoutArmed = true) :
    c.state = CallState.CreateOffer ∧
    (onNegotiationNeededFinish c co d sl so ud).1.state = CallState.InviteSent ∧
    (onNegotiationNeededFinish c co d sl so ud).2.timers = [TimerReq.inviteTimeout 60000] := by
  unfold onNegotiationNeededFinish at hpost ⊢
  split at hpost <;> rename_i hco
  · rw [if_pos hco]
    have h := gotLocalOffer_arming c d sl so ud hpre (by simpa using hpost)
    exact ⟨h.1, by simpa using h.2.1, by simpa using h.2.2⟩
  · unfold getLocalOfferFailed at hpost
    dsimp only at hpost
    have hc := terminate_armed_le _ _ _ _ (by simpa using hpost)
    simp [hpre] at hc

/-- `queueCandidate` leaves the invite timeout flag untouched. -/
theorem queueCandidate_armed_eq (c : Call) (cand : Candidate) :
    (queueCandidate c cand).1.inviteTimeoutArmed = c.inviteTimeoutArmed := by
  unfold queueCandidate
  simp [apply_ite (fun p : Call × Out => p.1.inviteTimeoutArmed)]

/-- The candidate flush start leaves the invite timeout flag untouched. -/
theorem sendCandidateQueueStart_armed_eq (c : Call) :
    (sendCandidateQueueStart c).1.inviteTimeoutArmed = c.inviteTimeoutArmed := by
  unfold sendCandidateQueueStart
  split <;> simp

/-- The candidate flush success continuation leaves the flag untouched. -/
theorem sendCandidateQueueOnSuccess_armed_eq (c : Call) :
    (sendCandidateQueueOnSuccess c).1.inviteTimeoutArmed = c.inviteTimeoutArmed := by
  unfold sendCandidateQueueOnSuccess
  rw [sendCandidateQueueStart_armed_eq]

/-- The candidate flush failure continuation leaves the flag untouched. -/
theorem sendCandidateQueueOnFailure_armed_eq (c : Call) (cands : List Candidate) :
    (sendCandidateQueueOnFailure c cands).1.inviteTimeoutArmed = c.inviteTimeoutArmed := by
  unfold sendCandidateQueueOnFailure
  simp [apply_ite (fun p : Call × Out => p.1.inviteTimeoutArmed)]

/-- The answer-send success continuation leaves the flag untouched. -/
theorem sendAnswerOnSuccess_armed_eq (c : Call) :
    (sendAnswerOnSuccess c).1.inviteTimeoutArmed = c.inviteTimeoutArmed := by
  unfold sendAnswerOnSuccess
  rw [sendCandidateQueueStart_armed_eq]

/-- `onNegotiationNeededStart` leaves the flag untouched. -/
theorem onNegotiationNeededStart_armed_eq (c : Call) :
    (onNegotiationNeededStart c).inviteTimeoutArmed = c.inviteTimeoutArmed := by
  unfold onNegotiationNeededStart
  split <;> simp

/-- Across every modelled operation, the invite timeout goes from disarmed to
armed only on the transition into `InviteSent`, together with the 60 s
one-shot timer. -/
theorem applyStep_arms_only_on_invite (c : Call) (s : Step)
    (hpre : c.inviteTimeoutArmed = false)
    (hpost : (applyStep c s).1.inviteTimeoutArmed = true) :
    c.state = CallState.CreateOffer ∧
    (applyStep c s).1.state = CallState.InviteSent ∧
    (applyStep c s).2.timers = [TimerReq.inviteTimeout 60000] := by
  cases s with
  | placeCallOp => exact absurd hpost (by simp [applyStep, placeCallWithConstraints, hpre])
  | gotUserMediaForInviteOp =>
      exact absurd hpost (by simp [applyStep, gotUserMediaForInvite_preserves_unarmed c hpre])
  | getUserMediaFailedOp =>
      exact absurd hpost (by simp [applyStep, getUserMediaFailed_preserves_unarmed c hpre])
  | answerOp a b d =>
      exact absurd hpost (by simp [applyStep, answer_preserves_unarmed c a b d hpre])
  | gotUserMediaForAnswerOp a b d =>
      exact absurd hpost (by simp [applyStep, gotUserMediaForAnswer_preserves_unarmed c a b d hpre])
  | hangupOp r e => exact absurd hpost (by simp [applyStep, hangup_preserves_unarmed c r e hpre])
  | rejectOp => exact absurd hpost (by simp [applyStep, reject_preserves_unarmed c hpre])
  | replacedByOp => exact absurd hpost (by simp [applyStep, replacedBy_preserves_unarmed c hpre])
  | initWithInviteOp m a ok k =>
      exact absurd hpost (by simp [applyStep, initWithInvite_preserves_unarmed c m a ok k hpre])
  | initWithHangupOp => exact absurd hpost (by simp [applyStep, initWithHangup, hpre])
  | onHangupReceivedOp m =>
      exact absurd hpost (by simp [applyStep, onHangupReceived_preserves_unarmed c m hpre])
  | onRejectReceivedOp =>
      exact absurd hpost (by simp [applyStep, onRejectReceived_preserves_unarmed c hpre])
  | onAnswerReceivedOp m ok =>
      exact absurd hpost (by simp [applyStep, onAnswerReceived_preserves_unarmed c m ok hpre])
  | onSelectAnswerReceivedOp m =>
      exact absurd hpost (by simp [applyStep, onSelectAnswerReceived_preserves_unarmed c m hpre])
  | onNegotiateReceivedOp m ok d =>
      exact absurd hpost (by simp [applyStep, onNegotiateReceived_armed_eq c m ok d, hpre])
  | onRemoteIceCandidatesReceivedOp m =>
      exact absurd hpost (by simp [applyStep, onRemoteIceCandidatesReceived_armed_eq c m, hpre])
  | onNegotiationNeededStartOp =>
      exact absurd hpost (by simp [applyStep, onNegotiationNeededStart_armed_eq c, hpre])
  | onNegotiationNeededFinishOp co d sl so ud =>
      have h := onNegotiationNeededFinish_arming c co d sl so ud hpre
        (by simpa [applyStep] using hpost)
      exact ⟨h.1, by simpa [applyStep] using h.2.1, by simpa [applyStep] using h.2.2⟩
  | queueCandidateOp cand =>
      exact absurd hpost (by simp [applyStep, queueCandidate_armed_eq c cand, hpre])
  | candidateFlushStartOp =>
      exact absurd hpost (by simp [applyStep, sendCandidateQueueStart_armed_eq c, hpre])
  | candidateFlushSuccessOp =>
      exact absurd hpost (by simp [applyStep, sendCandidateQueueOnSuccess_armed_eq c, hpre])
  | candidateFlushFailureOp cands =>
      exact absurd hpost (by simp [applyStep, sendCandidateQueueOnFailure_armed_eq c cands, hpre])
  | answerSendSuccessOp =>
      exact absurd hpost (by simp [applyStep, sendAnswerOnSuccess_armed_eq c, hpre])
  | answerSendFailureOp ud =>
      exact absurd hpost (by simp [applyStep, sendAnswerOnFailure, hpre])
  | iceStateChangedOp ice =>
      exact absurd hpost
        (by simp [applyStep, onIceConnectionStateChanged_preserves_unarmed c ice hpre])
  | inviteExpiryFiredOp =>
      exact absurd hpost (by simp [applyStep, inviteExpiryFired_preserves_unarmed c hpre])
  | inviteTimeoutFiredOp =>
      exact absurd hpost (by simp [applyStep, inviteTimeoutFired_unarmed c])

/-- Counterexample for C6: the claim says any exit from `InviteSent` disarms
the invite timeout, but `onAnswerReceived` moves the call from `InviteSent`
to `Connecting` without clearing the timer — the timer stays armed (it is
only neutralized by a state check when it later fires). -/
theorem C6_counterexample :
    (exampleInviteSentCall.state = CallState.InviteSent) ∧
    (exampleInviteSentCall.inviteTimeoutArmed = true) ∧
    ((onAnswerReceived exampleInviteSentCall
        { partyId := some "D2", version := some 0, answer := answerDesc1 } true).1.state
      = CallState.Connecting) ∧
    ((onAnswerReceived exampleInviteSentCall
        { partyId := some "D2", version := some 0, answer := answerDesc1 }
        true).1.inviteTimeoutArmed = true) := by decide

/-- C6 amended: the invite timeout is armed only on the transition into
`InviteSent` (as the 60 s one-shot), and it is disarmed by `terminate`; but
the only disarming exits are terminations and the firing itself — on the
answer path out of `InviteSent` the timer remains pending, and when it fires
it hangs up with `InviteTimeout` exactly when the call is still in
`InviteSent`, doing nothing but disarming itself otherwise. -/
theorem C6_amended_invite_timeout_discipline :
    (∀ (c : Call) (s : Step), c.inviteTimeoutArmed = false →
        (applyStep c s).1.inviteTimeoutArmed = true →
        c.state = CallState.CreateOffer ∧
        (applyStep c s).1.state = CallState.InviteSent ∧
        (applyStep c s).2.timers = [TimerReq.inviteTimeout 60000]) ∧
    (∀ (c : Call) (p : CallParty) (r : CallErrorCode) (e : Bool),
        (terminate c p r e).1.inviteTimeoutArmed = false ∨
        (c.state = CallState.Ended ∧ (terminate c p r e).1 = c)) ∧
    (∀ c : Call, c.state = CallState.InviteSent →
        (inviteTimeoutFired c).1.state = CallState.Ended ∧
        (inviteTimeoutFired c).1.hangupReason = some CallErrorCode.InviteTimeout ∧
        (inviteTimeoutFired c).1.inviteTimeoutArmed = false) ∧
    (∀ c : Call, c.state ≠ CallState.InviteSent →
        (inviteTimeoutFired c).1 = { c with inviteTimeoutArmed := false } ∧
        (inviteTimeoutFired c).2 = ({} : Out)) := by
  refine ⟨applyStep_arms_only_on_invite, ?_, ?_, ?_⟩
  · intro c p r e
    unfold terminate callHasEnded
    by_cases h : c.state = CallState.Ended <;> simp [h]
  · intro c hc
    unfold inviteTimeoutFired hangup terminate callHasEnded
    dsimp only
    simp [hc]
  · intro c hc
    unfold inviteTimeoutFired
    dsimp only
    simp [hc]

/-- Witness for C6 amended: from `CreateOffer` a successful invite send arms
the 60 s one-shot and enters `InviteSent`; firing the timer on a call still
in `InviteSent` ends it with reason `InviteTimeout`. -/
theorem C6_amended_witness :
    ((applyStep exampleCreateOfferCall
        (Step.onNegotiationNeededFinishOp true offerDesc true true false)).1.state
      = CallState.InviteSent) ∧
    ((applyStep exampleCreateOfferCall
        (Step.onNegotiationNeededFinishOp true offerDesc true true false)).2.timers
      = [TimerReq.inviteTimeout 60000]) ∧
    ((inviteTimeoutFired exampleInviteSentCall).1.state = CallState.Ended) ∧
    ((inviteTimeoutFired exampleInviteSentCall).1.hangupReason
      = some CallErrorCode.InviteTimeout) := by
  have ha := C6_amended_invite_timeout_discipline.1 exampleCreateOfferCall
    (Step.onNegotiationNeededFinishOp true offerDesc true true false) (by decide) (by decide)
  have hc := C6_amended_invite_timeout_discipline.2.2.1 exampleInviteSentCall (by decide)
  exact ⟨ha.2.1, ha.2.2, hc.1, hc.2.1⟩

end WebrtcCall
